import Mathlib

/-!
# Verification of the `@spherity/timestamp` TimestampController

Shallow embedding of `src/src/TimestampController.ts` (the current revision of
the library). The controller manages a Merkle-tree commitment over data leaves,
anchors the root hash in an ERC-7506 trusted hint registry, and verifies leaf
proofs against the anchored root together with a timestamp-tolerance window.

External collaborators (the `@openzeppelin/merkle-tree` library and the
registry contract reached through `ethers`) are modelled as explicit function
parameters: the Merkle library as a record of its operations, the registry
reads/writes as functions supplied to each method. A JavaScript `Date` argument
is modelled by the integer its `getTime()` method returns (milliseconds since
epoch); JavaScript `undefined` for an optional field is modelled by `Option`.
Errors thrown by the controller (`TimestampControllerError`) and errors
propagated from collaborators are modelled with `Except`.
-/

namespace Timestamp

/-- A JavaScript value as it appears in leaves (`any` in the TypeScript
source): a string, a number, or an array of values. -/
inductive Val where
  | str : String → Val
  | num : Int → Val
  | tup : List Val → Val

/-- Errors surfaced by controller methods: `controller` is a thrown
`TimestampControllerError` carrying its message; `external` is an error
propagated unchanged from a collaborator library. -/
inductive TCError where
  | controller : String → TCError
  | external : String → TCError
deriving DecidableEq, Repr

/-- Interface of the `StandardMerkleTree` collaborator
(`@openzeppelin/merkle-tree`), as consumed by the controller. `of` and
`getProofByLeaf` may throw, which is modelled with `Except`;
`getProofByIndex` models `getProof(index)` possibly returning nothing. -/
structure MerkleLib (Tree : Type) where
  of : List Val → List String → Except String Tree
  root : Tree → String
  getProofByLeaf : Tree → Val → Except String (List String)
  getProofByIndex : Tree → Nat → Option (List String)
  entries : Tree → List (Nat × List Val)
  leavesOf : Tree → List Val
  verify : String → List String → Val → List String → Bool

/-- `ContractOptions` from the source: contract address plus the
`(namespace, list)` key prefix. The `namespace` field is renamed `ns`
(`namespace` is a Lean keyword). -/
structure ContractOptions where
  contractAddress : String
  ns : String
  list : String
deriving DecidableEq, Repr

/-- `TreeOptions` from the source: leaves and their encoding descriptors. -/
structure TreeOptions where
  leaves : List Val
  encoding : List String

/-- The `TreeOrRootOptions` tagged union: either tree options or a literal
root hash. The `undefined` case is modelled by `Option TreeOrRootOptions`
at the use sites. -/
inductive TreeOrRootOptions where
  | treeOpts : TreeOptions → TreeOrRootOptions
  | rootHashOpt : String → TreeOrRootOptions

/-- The mutable private fields of a `TimestampController` instance, together
with its construction-time contract options. `none` models an `undefined`
field. -/
structure ControllerState (Tree : Type) where
  opts : ContractOptions
  merkleTree : Option Tree
  rootHash : Option String

/-- The reserved confirmation sentinel written to and expected from the
registry. -/
def CONFIRMATION_VALUE : String :=
  "0x1000000000000000000000000000000000000000000000000000000000000000"

/-- `VerificationFailure.ROOT_HASH_EXPIRED` from the source. -/
def ROOT_HASH_EXPIRED : String := "root_hash_expired"

/-- `VerificationFailure.ROOT_HASH_NOT_FOUND` from the source. -/
def ROOT_HASH_NOT_FOUND : String := "root_hash_not_found"

/-- `VerificationFailure.MERKLE_PROOF_INVALID` from the source. -/
def MERKLE_PROOF_INVALID : String := "merkle_proof_invalid"

/-- The message of the error thrown by `getRootHash` when no root hash is
available. -/
def noRootHashMsg : String :=
  "No root hash available. Initialize with leaves or provide a root hash."

/-- JavaScript truthiness of the optional string field `this.rootHash`:
`!this.rootHash` is true when the field is `undefined` or the empty string. -/
def strFalsy : Option String → Bool
  | none => true
  | some s => s = ""

/-- `createMerkleTree` (private): builds the tree via
`StandardMerkleTree.of(options.leaves, options.encoding)` and stores tree and
root; wraps any construction failure in a `TimestampControllerError`. -/
def createMerkleTree {Tree : Type} (lib : MerkleLib Tree)
    (s : ControllerState Tree) (options : TreeOptions) :
    Except TCError (ControllerState Tree) :=
  match lib.of options.leaves options.encoding with
  | .error e => .error (.controller ("Failed to create merkle tree: " ++ e))
  | .ok t => .ok { s with merkleTree := some t, rootHash := some (lib.root t) }

/-- `initializeTreeOrRoot` (private): dispatches on the tagged union; absent
options leave both fields unset. -/
def initializeTreeOrRoot {Tree : Type} (lib : MerkleLib Tree)
    (s : ControllerState Tree) :
    Option TreeOrRootOptions → Except TCError (ControllerState Tree)
  | none => .ok s
  | some (.treeOpts o) => createMerkleTree lib s o
  | some (.rootHashOpt rh) => .ok { s with rootHash := some rh }

/-- The constructor, restricted to the state it establishes (the
provider/signer/contract plumbing is out of the claims' scope): starts from
unset tree and root fields and runs `initializeTreeOrRoot`. -/
def mkTimestampController {Tree : Type} (lib : MerkleLib Tree)
    (contractOptions : ContractOptions)
    (treeOrRootOptions : Option TreeOrRootOptions) :
    Except TCError (ControllerState Tree) :=
  initializeTreeOrRoot lib ⟨contractOptions, none, none⟩ treeOrRootOptions

/-- `getRootHash`: throws when `!this.rootHash` (undefined or empty string),
otherwise returns the stored root hash. -/
def getRootHash {Tree : Type} (s : ControllerState Tree) :
    Except TCError String :=
  match s.rootHash with
  | none => .error (.controller noRootHashMsg)
  | some rh =>
    if rh = "" then .error (.controller noRootHashMsg) else .ok rh

/-- One `setHint(namespace, list, key, value)` registry write, by its
arguments. -/
structure SetHintCall where
  ns : String
  list : String
  key : String
  value : String
deriving DecidableEq, Repr

/-- `anchorRootHash`: reads the root hash via `getRootHash` (which throws if
none is available), then issues a single `setHint` write of the confirmation
sentinel; any failure of the call is wrapped as a `TimestampControllerError`
retaining the cause. The returned list records the registry writes issued
(the transaction response is modelled as a string handle). -/
def anchorRootHash {Tree : Type}
    (setHint : SetHintCall → Except String String)
    (s : ControllerState Tree) :
    List SetHintCall × Except TCError String :=
  match getRootHash s with
  | .error e => ([], .error e)
  | .ok key =>
    let call : SetHintCall := ⟨s.opts.ns, s.opts.list, key, CONFIRMATION_VALUE⟩
    match setHint call with
    | .ok tx => ([call], .ok tx)
    | .error e =>
      ([call], .error (.controller ("Failed to anchor root hash: " ++ e)))

/-- `MerkleProof` result shape: the leaf and its sibling-hash path. -/
structure MerkleProof where
  leaf : Val
  proof : List String

/-- `getMerkleProof`: throws when no tree is loaded; otherwise returns the
leaf with the proof the library produces for it (library errors propagate
unchanged). -/
def getMerkleProof {Tree : Type} (lib : MerkleLib Tree)
    (s : ControllerState Tree) (leaf : Val) : Except TCError MerkleProof :=
  match s.merkleTree with
  | none => .error (.controller "No merkle tree available to generate proof")
  | some t =>
    match lib.getProofByLeaf t leaf with
    | .error e => .error (.external e)
    | .ok p => .ok ⟨leaf, p⟩

/-- `getAllMerkleProofs`: throws when no tree is loaded; otherwise maps every
entry `(index, [value, ...])` to `{leaf: [value], proof(index)}`, throwing
when a proof for an index is missing. The destructuring `[value]` takes the
first element of the entry's leaf tuple. -/
def getAllMerkleProofs {Tree : Type} (lib : MerkleLib Tree)
    (s : ControllerState Tree) : Except TCError (List MerkleProof) :=
  match s.merkleTree with
  | none => .error (.controller "No merkle tree available to generate proofs")
  | some t =>
    (lib.entries t).mapM (fun e =>
      match lib.getProofByIndex t e.fst with
      | none =>
        .error (.controller ("Failed to get proof for leaf at index "
          ++ toString e.fst))
      | some proof => .ok ⟨Val.tup (e.snd.take 1), proof⟩)

/-- An emitted `HintValueChanged` event as consumed by `verifyProof`: its
recorded value, block number, and transaction hash. -/
structure EventLog where
  value : String
  blockNumber : Int
  transactionHash : String
deriving DecidableEq, Repr

/-- `getHintValueChangedEvents` (private): queries the registry for events
filtered by `(namespace, list, rootHash)`; the query itself is the
collaborator function `queryFilter`. -/
def getHintValueChangedEvents {Tree : Type}
    (queryFilter : String → String → Option String → List EventLog)
    (s : ControllerState Tree) : List EventLog :=
  queryFilter s.opts.ns s.opts.list s.rootHash

/-- `isTimestampValid` (private): `Math.abs(rootHashTimestamp −
leafCreationTime.getTime()) <= maxTimeDifference`. The `Date` argument is
modelled by its `getTime()` value (milliseconds since epoch; `Math.floor` on
an integer is the identity). `none` for `maxTimeDifference` models a call
site omitting the argument: in JavaScript the comparison with `undefined`
(coerced to `NaN`) is false. -/
def isTimestampValid (rootHashTimestamp leafCreationTimestamp : Int) :
    Option Int → Bool
  | some m => ((rootHashTimestamp - leafCreationTimestamp).natAbs : Int) ≤ m
  | none => false

/-- Result shape of `verifyProof`. -/
structure VerifyResult where
  verified : Bool
  reason : Option String
deriving DecidableEq, Repr

/-- `verifyProof`: requires a root hash (`getRootHash` throws otherwise),
then in order: no matching event → `ROOT_HASH_NOT_FOUND`; last event's value
not the confirmation sentinel → `ROOT_HASH_NOT_FOUND`; block timestamp of
that event unresolvable → throws; timestamp-tolerance check fails →
`ROOT_HASH_EXPIRED`; Merkle verification fails → `MERKLE_PROOF_INVALID`;
otherwise verified. `events[events.length - 1]` on a non-empty array is the
last element, so the empty check and the indexing are rendered by one match
on `getLast?`. In the TypeScript source `leafEncoding` defaults to
`["string"]` when omitted; here it is always passed explicitly. -/
def verifyProof {Tree : Type}
    (queryFilter : String → String → Option String → List EventLog)
    (getBlockTimestamp : Int → Option Int)
    (merkleVerify : String → List String → Val → List String → Bool)
    (s : ControllerState Tree) (leaf : Val) (proof : List String)
    (leafCreationTimestamp : Int) (maxTimeDifference : Option Int)
    (leafEncoding : List String) : Except TCError VerifyResult :=
  match getRootHash s with
  | .error e => .error e
  | .ok rootHash =>
    let events := getHintValueChangedEvents queryFilter s
    match events.getLast? with
    | none => .ok ⟨false, some ROOT_HASH_NOT_FOUND⟩
    | some latestEvent =>
      if latestEvent.value ≠ CONFIRMATION_VALUE then
        .ok ⟨false, some ROOT_HASH_NOT_FOUND⟩
      else
        match getBlockTimestamp latestEvent.blockNumber with
        | none =>
          .error (.controller
            ("Failed to get block timestamp for event transaction "
              ++ latestEvent.transactionHash))
        | some rootHashTimestamp =>
          if isTimestampValid rootHashTimestamp leafCreationTimestamp
              maxTimeDifference then
            if merkleVerify rootHash leafEncoding leaf proof then
              .ok ⟨true, none⟩
            else
              .ok ⟨false, some MERKLE_PROOF_INVALID⟩
          else
            .ok ⟨false, some ROOT_HASH_EXPIRED⟩

/-- Modelled from the spec: the repository's `addLeaves` method is not
present in `src/src/TimestampController.ts`; only its caller in the
integration test is. Per the spec, `addLeaves(newLeaves)` "appends leaves to
the existing leaf set and rebuilds the tree, producing a new generation and
new root hash, replacing the old one" and "fails with `CommitmentError` if no
tree exists yet (literal-root-hash mode)". The rebuild reuses the tree
construction path, so failures carry the same wrapped message; the encoding
of the existing tree is supplied by the caller. -/
def addLeaves {Tree : Type} (lib : MerkleLib Tree) (encoding : List String)
    (s : ControllerState Tree) (newLeaves : List Val) :
    Except TCError (ControllerState Tree) :=
  match s.merkleTree with
  | none => .error (.controller "No merkle tree available to add leaves to")
  | some t =>
    match lib.of (lib.leavesOf t ++ newLeaves) encoding with
    | .error e => .error (.controller ("Failed to create merkle tree: " ++ e))
    | .ok t2 =>
      .ok { s with merkleTree := some t2, rootHash := some (lib.root t2) }

/-- Refinement comparison for the claim that the constructor wraps each leaf:
`createMerkleTree` as that claim's words describe it, with every leaf wrapped
as a singleton tuple before being handed to the tree-construction primitive.
(The source of the current revision passes `options.leaves` unchanged; an
earlier revision wrapped.) -/
def createMerkleTreeWrapped {Tree : Type} (lib : MerkleLib Tree)
    (s : ControllerState Tree) (options : TreeOptions) :
    Except TCError (ControllerState Tree) :=
  match lib.of (options.leaves.map (fun l => Val.tup [l])) options.encoding with
  | .error e => .error (.controller ("Failed to create merkle tree: " ++ e))
  | .ok t => .ok { s with merkleTree := some t, rootHash := some (lib.root t) }

/-- The invariant tying the two instance fields together: whenever a Merkle
tree is present, the stored root hash is that tree's root. -/
def rootInvariant {Tree : Type} (lib : MerkleLib Tree)
    (s : ControllerState Tree) : Prop :=
  ∀ t, s.merkleTree = some t → s.rootHash = some (lib.root t)

/-- `getRootHash` with its (absent) effect on the instance fields made
explicit: the method body contains no assignment to `this.merkleTree` or
`this.rootHash`, so the state is returned unchanged beside the result. The
four variants below render the other public operations the same way. -/
def getRootHashS {Tree : Type} (s : ControllerState Tree) :
    Except TCError String × ControllerState Tree :=
  (getRootHash s, s)

/-- `anchorRootHash` with its (absent) field effect made explicit. -/
def anchorRootHashS {Tree : Type}
    (setHint : SetHintCall → Except String String)
    (s : ControllerState Tree) :
    (List SetHintCall × Except TCError String) × ControllerState Tree :=
  (anchorRootHash setHint s, s)

/-- `getMerkleProof` with its (absent) field effect made explicit. -/
def getMerkleProofS {Tree : Type} (lib : MerkleLib Tree)
    (s : ControllerState Tree) (leaf : Val) :
    Except TCError MerkleProof × ControllerState Tree :=
  (getMerkleProof lib s leaf, s)

/-- `getAllMerkleProofs` with its (absent) field effect made explicit. -/
def getAllMerkleProofsS {Tree : Type} (lib : MerkleLib Tree)
    (s : ControllerState Tree) :
    Except TCError (List MerkleProof) × ControllerState Tree :=
  (getAllMerkleProofs lib s, s)

/-- `verifyProof` with its (absent) field effect made explicit. -/
def verifyProofS {Tree : Type}
    (queryFilter : String → String → Option String → List EventLog)
    (getBlockTimestamp : Int → Option Int)
    (merkleVerify : String → List String → Val → List String → Bool)
    (s : ControllerState Tree) (leaf : Val) (proof : List String)
    (leafCreationTimestamp : Int) (maxTimeDifference : Option Int)
    (leafEncoding : List String) :
    Except TCError VerifyResult × ControllerState Tree :=
  (verifyProof queryFilter getBlockTimestamp merkleVerify s leaf proof
    leafCreationTimestamp maxTimeDifference leafEncoding, s)

/-! ### Concrete instantiations used by witnesses -/

/-- Concrete contract options for witnesses. -/
def copts0 : ContractOptions := ⟨"0xaddr", "0xns", "0xlist"⟩

/-- The eleven pre-wrapped string leaves `["data1"] .. ["data11"]` of the
integration-test scenario. -/
def data11 : List Val :=
  ["data1", "data2", "data3", "data4", "data5", "data6", "data7", "data8",
    "data9", "data10", "data11"].map (fun d => Val.tup [Val.str d])

/-- A concrete Merkle collaborator whose tree records exactly the leaf list
it was constructed from, making the argument passed to `of` observable; its
`verify` accepts every proof. -/
def listLib : MerkleLib (List Val) where
  of := fun ls _ => .ok ls
  root := fun _ => "0xroot"
  getProofByLeaf := fun _ _ => .ok ["p1"]
  getProofByIndex := fun _ _ => some ["p1"]
  entries := fun _ => []
  leavesOf := fun t => t
  verify := fun _ _ _ _ => true

/-- A concrete Merkle collaborator whose tree construction always fails. -/
def failLib : MerkleLib Unit where
  of := fun _ _ => .error "bad leaf"
  root := fun _ => "0xroot"
  getProofByLeaf := fun _ _ => .error "leaf not found"
  getProofByIndex := fun _ _ => none
  entries := fun _ => []
  leavesOf := fun _ => []
  verify := fun _ _ _ _ => false

/-! ## Theorems -/

/-- C1: on an instance with a root hash set, `verifyProof` decides its result
by the following ordered, short-circuiting checks: no matching registry event
for `(namespace, list, rootHash)` → `{verified:false, reason:
ROOT_HASH_NOT_FOUND}`; last event's value differing from the reserved
confirmation sentinel → `{verified:false, reason: ROOT_HASH_NOT_FOUND}`;
failed timestamp-tolerance check → `{verified:false, reason:
ROOT_HASH_EXPIRED}`; failed Merkle verification → `{verified:false, reason:
MERKLE_PROOF_INVALID}`; otherwise `{verified:true}` with no reason. -/
theorem verifyProof_check_order {Tree : Type}
    (queryFilter : String → String → Option String → List EventLog)
    (getBlockTimestamp : Int → Option Int)
    (merkleVerify : String → List String → Val → List String → Bool)
    (s : ControllerState Tree) (leaf : Val) (proof : List String)
    (c : Int) (m : Option Int) (enc : List String) (rh : String)
    (hroot : getRootHash s = .ok rh) :
    (getHintValueChangedEvents queryFilter s = [] →
      verifyProof queryFilter getBlockTimestamp merkleVerify s leaf proof c m
          enc = .ok ⟨false, some ROOT_HASH_NOT_FOUND⟩)
    ∧ (∀ ev, (getHintValueChangedEvents queryFilter s).getLast? = some ev →
        ev.value ≠ CONFIRMATION_VALUE →
        verifyProof queryFilter getBlockTimestamp merkleVerify s leaf proof c m
            enc = .ok ⟨false, some ROOT_HASH_NOT_FOUND⟩)
    ∧ (∀ ev t, (getHintValueChangedEvents queryFilter s).getLast? = some ev →
        ev.value = CONFIRMATION_VALUE →
        getBlockTimestamp ev.blockNumber = some t →
        isTimestampValid t c m = false →
        verifyProof queryFilter getBlockTimestamp merkleVerify s leaf proof c m
            enc = .ok ⟨false, some ROOT_HASH_EXPIRED⟩)
    ∧ (∀ ev t, (getHintValueChangedEvents queryFilter s).getLast? = some ev →
        ev.value = CONFIRMATION_VALUE →
        getBlockTimestamp ev.blockNumber = some t →
        isTimestampValid t c m = true →
        merkleVerify rh enc leaf proof = false →
        verifyProof queryFilter getBlockTimestamp merkleVerify s leaf proof c m
            enc = .ok ⟨false, some MERKLE_PROOF_INVALID⟩)
    ∧ (∀ ev t, (getHintValueChangedEvents queryFilter s).getLast? = some ev →
        ev.value = CONFIRMATION_VALUE →
        getBlockTimestamp ev.blockNumber = some t →
        isTimestampValid t c m = true →
        merkleVerify rh enc leaf proof = true →
        verifyProof queryFilter getBlockTimestamp merkleVerify s leaf proof c m
            enc = .ok ⟨true, none⟩) := by
  refine ⟨?_, ?_, ?_, ?_, ?_⟩ <;> intros <;>
    simp_all [verifyProof, getHintValueChangedEvents]

/-- Witness for C1: the fully-verified branch at a concrete instance. -/
theorem verifyProof_check_order_witness :
    verifyProof (fun _ _ _ => [⟨CONFIRMATION_VALUE, 5, "0xtx"⟩])
      (fun _ => some 100000) (fun _ _ _ _ => true)
      (⟨⟨"0xaddr", "0xns", "0xlist"⟩, (none : Option Unit), some "0xroot"⟩)
      (Val.str "leaf1") ["p1"] 100000 (some 2592000) ["string"]
      = .ok ⟨true, none⟩ := by
  have h := verifyProof_check_order
    (fun _ _ _ => [⟨CONFIRMATION_VALUE, 5, "0xtx"⟩])
    (fun _ => some 100000) (fun _ _ _ _ => true)
    (⟨⟨"0xaddr", "0xns", "0xlist"⟩, (none : Option Unit), some "0xroot"⟩)
    (Val.str "leaf1") ["p1"] 100000 (some 2592000) ["string"] "0xroot" rfl
  exact h.2.2.2.2 ⟨CONFIRMATION_VALUE, 5, "0xtx"⟩ 100000 rfl rfl rfl
    (by decide) rfl

/-- C3: the timestamp-tolerance comparison is inclusive at the boundary: for
block timestamp `t`, leaf creation timestamp `c` (the `getTime()` value of the
`Date` argument) and non-negative `m`, the check passes exactly when
`|t − c| ≤ m`, and a difference of exactly `m + 1` makes `verifyProof` return
`{verified:false, reason: ROOT_HASH_EXPIRED}`. -/
theorem isTimestampValid_boundary {Tree : Type}
    (t c m : Int) (hm : 0 ≤ m)
    (queryFilter : String → String → Option String → List EventLog)
    (getBlockTimestamp : Int → Option Int)
    (merkleVerify : String → List String → Val → List String → Bool)
    (s : ControllerState Tree) (leaf : Val) (proof : List String)
    (enc : List String) (rh : String) (ev : EventLog)
    (hroot : getRootHash s = .ok rh)
    (hlast : (getHintValueChangedEvents queryFilter s).getLast? = some ev)
    (hval : ev.value = CONFIRMATION_VALUE)
    (hts : getBlockTimestamp ev.blockNumber = some t) :
    (isTimestampValid t c (some m) = true ↔ |t - c| ≤ m)
    ∧ (|t - c| = m + 1 →
        verifyProof queryFilter getBlockTimestamp merkleVerify s leaf proof c
          (some m) enc = .ok ⟨false, some ROOT_HASH_EXPIRED⟩) := by
  have habs : ((t - c).natAbs : Int) = |t - c| := (Int.abs_eq_natAbs _).symm
  constructor
  · simp [isTimestampValid, habs]
  · intro hdiff
    have hfail : isTimestampValid t c (some m) = false := by
      simp [isTimestampValid, habs, hdiff]
    simp_all [verifyProof, getHintValueChangedEvents]

/-- Witness for C3 at `t = 10`, `c = 7`, `m = 2` (difference exactly `m + 1`). -/
theorem isTimestampValid_boundary_witness :
    (isTimestampValid 10 7 (some 2) = true ↔ |(10 : Int) - 7| ≤ 2)
    ∧ (|(10 : Int) - 7| = 2 + 1 →
        verifyProof (fun _ _ _ => [⟨CONFIRMATION_VALUE, 5, "0xtx"⟩])
          (fun _ => some 10) (fun _ _ _ _ => true)
          (⟨⟨"0xaddr", "0xns", "0xlist"⟩, (none : Option Unit), some "0xroot"⟩)
          (Val.str "leaf1") ["p1"] 7 (some 2) ["string"]
          = .ok ⟨false, some ROOT_HASH_EXPIRED⟩) :=
  isTimestampValid_boundary 10 7 2 (by decide)
    (fun _ _ _ => [⟨CONFIRMATION_VALUE, 5, "0xtx"⟩])
    (fun _ => some 10) (fun _ _ _ _ => true)
    (⟨⟨"0xaddr", "0xns", "0xlist"⟩, (none : Option Unit), some "0xroot"⟩)
    (Val.str "leaf1") ["p1"] ["string"] "0xroot"
    ⟨CONFIRMATION_VALUE, 5, "0xtx"⟩ rfl rfl rfl rfl

/-- C5 (code bug): the source declares `maxTimeDifference` as a required
parameter with no default value, while its own doc comment calls it optional
with a 30-day default. A call omitting the argument (JavaScript `undefined`,
modelled by `none`) makes the comparison `|t − c| <= undefined` evaluate to
false, so verification fails with `ROOT_HASH_EXPIRED` even when the creation
time equals the anchor's block time and the Merkle proof is valid — instead of
using the documented 2592000-second default. -/
theorem verifyProof_no_default_maxTimeDifference :
    (∀ t c : Int, isTimestampValid t c none = false)
    ∧ verifyProof (fun _ _ _ => [⟨CONFIRMATION_VALUE, 5, "0xtx"⟩])
        (fun _ => some 100000) (fun _ _ _ _ => true)
        (⟨⟨"0xaddr", "0xns", "0xlist"⟩, (none : Option Unit), some "0xroot"⟩)
        (Val.str "leaf1") ["p1"] 100000 none ["string"]
        = .ok ⟨false, some ROOT_HASH_EXPIRED⟩ :=
  ⟨fun _ _ => rfl, rfl⟩

/-- C10: a literal root hash equal to the empty string is treated like a
missing root hash: construction with `{ rootHash: "" }` stores the empty
string, but JavaScript falsiness makes `getRootHash` throw the "No root hash
available" error, and `anchorRootHash` and `verifyProof` fail with the same
error instead of operating on the empty root hash. -/
theorem emptyRootHash_treated_as_missing {Tree : Type} (lib : MerkleLib Tree)
    (copts : ContractOptions) (setHint : SetHintCall → Except String String)
    (queryFilter : String → String → Option String → List EventLog)
    (getBlockTimestamp : Int → Option Int)
    (merkleVerify : String → List String → Val → List String → Bool)
    (leaf : Val) (proof : List String) (c : Int) (m : Option Int)
    (enc : List String) :
    mkTimestampController lib copts (some (.rootHashOpt ""))
        = .ok ⟨copts, none, some ""⟩
    ∧ getRootHash (⟨copts, none, some ""⟩ : ControllerState Tree)
        = .error (.controller noRootHashMsg)
    ∧ anchorRootHash setHint (⟨copts, none, some ""⟩ : ControllerState Tree)
        = ([], .error (.controller noRootHashMsg))
    ∧ verifyProof queryFilter getBlockTimestamp merkleVerify
        (⟨copts, none, some ""⟩ : ControllerState Tree) leaf proof c m enc
        = .error (.controller noRootHashMsg) := by
  refine ⟨rfl, rfl, ?_, ?_⟩ <;>
    simp [anchorRootHash, verifyProof, getRootHash]

/-- C2: in the scenario where the tree is built from the pre-wrapped leaves
`["data1"] .. ["data11"]` with encoding `["string"]`, the root hash is
anchored (the registry holds a confirmation event whose block time is `t`),
and `verifyProof` is called with the proof from `getMerkleProof(["data1"])`, a
leaf creation time equal to `t`, and `maxTimeDifference = 2592000`, the result
is `{verified:true}`; in particular the timestamp-tolerance check accepts a
leaf creation time equal to the anchor's block timestamp. -/
theorem verifyProof_scenario_data11 {Tree : Type} (lib : MerkleLib Tree)
    (copts : ContractOptions) (s : ControllerState Tree) (pr : MerkleProof)
    (queryFilter : String → String → Option String → List EventLog)
    (getBlockTimestamp : Int → Option Int)
    (ev : EventLog) (t : Int) (rh : String)
    (hmk : mkTimestampController lib copts
      (some (.treeOpts ⟨data11, ["string"]⟩)) = .ok s)
    (hpr : getMerkleProof lib s (Val.tup [Val.str "data1"]) = .ok pr)
    (hroot : getRootHash s = .ok rh)
    (hlast : (getHintValueChangedEvents queryFilter s).getLast? = some ev)
    (hval : ev.value = CONFIRMATION_VALUE)
    (hts : getBlockTimestamp ev.blockNumber = some t)
    (hverify : lib.verify rh ["string"] pr.leaf pr.proof = true) :
    isTimestampValid t t (some 2592000) = true
    ∧ verifyProof queryFilter getBlockTimestamp lib.verify s pr.leaf pr.proof
        t (some 2592000) ["string"] = .ok ⟨true, none⟩ := by
  have hok : isTimestampValid t t (some 2592000) = true := by
    simp [isTimestampValid]
  refine ⟨hok, ?_⟩
  simp_all [verifyProof, getHintValueChangedEvents]

/-- Witness for C2: the scenario realized with the concrete collaborator
`listLib` and an anchoring event at block time 1700000000. -/
theorem verifyProof_scenario_data11_witness :
    isTimestampValid 1700000000 1700000000 (some 2592000) = true
    ∧ verifyProof (fun _ _ _ => [⟨CONFIRMATION_VALUE, 5, "0xtx"⟩])
        (fun _ => some 1700000000) listLib.verify
        ⟨copts0, some data11, some "0xroot"⟩
        (Val.tup [Val.str "data1"]) ["p1"] 1700000000 (some 2592000)
        ["string"] = .ok ⟨true, none⟩ :=
  verifyProof_scenario_data11 listLib copts0
    ⟨copts0, some data11, some "0xroot"⟩
    ⟨Val.tup [Val.str "data1"], ["p1"]⟩
    (fun _ _ _ => [⟨CONFIRMATION_VALUE, 5, "0xtx"⟩])
    (fun _ => some 1700000000)
    ⟨CONFIRMATION_VALUE, 5, "0xtx"⟩ 1700000000 "0xroot"
    rfl rfl rfl rfl rfl rfl rfl

/-- C4 (modelled from the spec, `addLeaves` being absent from the source
file): `addLeaves(newLeaves)` appends the given leaves to the existing leaf
set and rebuilds the Merkle tree, after which `getRootHash` returns the
rebuilt tree's root hash in place of the old one; and it fails with a
`TimestampControllerError` when the instance holds no tree. -/
theorem addLeaves_rebuilds {Tree : Type} (lib : MerkleLib Tree)
    (enc : List String) (s : ControllerState Tree) (newLeaves : List Val) :
    (s.merkleTree = none →
      addLeaves lib enc s newLeaves
        = .error (.controller "No merkle tree available to add leaves to"))
    ∧ (∀ t t2, s.merkleTree = some t →
        lib.of (lib.leavesOf t ++ newLeaves) enc = .ok t2 →
        lib.root t2 ≠ "" →
        addLeaves lib enc s newLeaves
          = .ok { s with merkleTree := some t2,
                          rootHash := some (lib.root t2) }
        ∧ getRootHash { s with merkleTree := some t2,
                                rootHash := some (lib.root t2) }
            = .ok (lib.root t2)) := by
  constructor
  · intro h
    simp [addLeaves, h]
  · intro t t2 ht hof hne
    constructor
    · simp [addLeaves, ht, hof]
    · simp [getRootHash, hne]

/-- Witness for C4: appending `["data12"]` to the eleven-leaf tree of
`listLib` rebuilds the tree over the twelve leaves and `getRootHash` returns
the rebuilt root. -/
theorem addLeaves_rebuilds_witness :
    addLeaves listLib ["string"] ⟨copts0, some data11, some "0xroot"⟩
        [Val.tup [Val.str "data12"]]
      = .ok ⟨copts0, some (data11 ++ [Val.tup [Val.str "data12"]]),
          some "0xroot"⟩
    ∧ getRootHash (⟨copts0, some (data11 ++ [Val.tup [Val.str "data12"]]),
          some "0xroot"⟩ : ControllerState (List Val))
        = .ok "0xroot" :=
  (addLeaves_rebuilds listLib ["string"]
      ⟨copts0, some data11, some "0xroot"⟩ [Val.tup [Val.str "data12"]]).2
    data11 (data11 ++ [Val.tup [Val.str "data12"]]) rfl rfl (by decide)

/-- C6 counterexample: the current source passes `options.leaves` to the
tree-construction primitive unchanged, not with each leaf wrapped as a
singleton tuple. With the recording collaborator `listLib`, constructing from
the single leaf `"data1"` hands the primitive `[Val.str "data1"]`, while the
claimed wrapping would hand it `[Val.tup [Val.str "data1"]]`, and the two
differ. -/
theorem createMerkleTree_no_wrap_counterexample :
    createMerkleTree listLib ⟨copts0, none, none⟩
        ⟨[Val.str "data1"], ["string"]⟩
      = .ok ⟨copts0, some [Val.str "data1"], some "0xroot"⟩
    ∧ createMerkleTreeWrapped listLib ⟨copts0, none, none⟩
        ⟨[Val.str "data1"], ["string"]⟩
      = .ok ⟨copts0, some [Val.tup [Val.str "data1"]], some "0xroot"⟩
    ∧ [Val.str "data1"] ≠ [Val.tup [Val.str "data1"]] := by
  refine ⟨rfl, rfl, ?_⟩
  simp

/-- C6 as amended: the constructor given `{ leaves, encoding }` passes the
leaves sequence unchanged (the caller supplies already-wrapped tuples) to the
tree-construction primitive together with the encoding, and on any
construction failure it fails with a `TimestampControllerError` whose message
wraps the underlying cause. -/
theorem mk_with_leaves_passes_leaves_unchanged {Tree : Type}
    (lib : MerkleLib Tree) (copts : ContractOptions) (o : TreeOptions) :
    (∀ e, lib.of o.leaves o.encoding = .error e →
      mkTimestampController lib copts (some (.treeOpts o))
        = .error (.controller ("Failed to create merkle tree: " ++ e)))
    ∧ (∀ t, lib.of o.leaves o.encoding = .ok t →
      mkTimestampController lib copts (some (.treeOpts o))
        = .ok ⟨copts, some t, some (lib.root t)⟩) := by
  constructor <;> intro x h <;>
    simp [mkTimestampController, initializeTreeOrRoot, createMerkleTree, h]

/-- Witness for the amended C6: a failing construction wraps its cause, and a
succeeding one stores the tree built from the unchanged leaves. -/
theorem mk_with_leaves_passes_leaves_unchanged_witness :
    mkTimestampController failLib copts0
        (some (.treeOpts ⟨[Val.str "data1"], ["string"]⟩))
      = .error (.controller "Failed to create merkle tree: bad leaf")
    ∧ mkTimestampController listLib copts0
        (some (.treeOpts ⟨[Val.str "data1"], ["string"]⟩))
      = .ok ⟨copts0, some [Val.str "data1"], some "0xroot"⟩ :=
  ⟨(mk_with_leaves_passes_leaves_unchanged failLib copts0
      ⟨[Val.str "data1"], ["string"]⟩).1 "bad leaf" rfl,
    (mk_with_leaves_passes_leaves_unchanged listLib copts0
      ⟨[Val.str "data1"], ["string"]⟩).2 [Val.str "data1"] rfl⟩

/-- C7: `anchorRootHash` fails with the "No root hash available" error when no
root hash is set (the field is undefined or empty, issuing no write); when a
root hash is available it issues exactly one registry write setting
`(namespace, list, key = rootHash)` to the confirmation sentinel, regardless
of the call's outcome (no retry); and on failure of the underlying call it
raises a `TimestampControllerError` retaining the original cause. -/
theorem anchorRootHash_single_write {Tree : Type}
    (setHint : SetHintCall → Except String String)
    (s : ControllerState Tree) :
    (strFalsy s.rootHash = true →
      anchorRootHash setHint s = ([], .error (.controller noRootHashMsg)))
    ∧ (∀ rh, getRootHash s = .ok rh →
        (anchorRootHash setHint s).1
            = [⟨s.opts.ns, s.opts.list, rh, CONFIRMATION_VALUE⟩]
        ∧ (∀ tx,
            setHint ⟨s.opts.ns, s.opts.list, rh, CONFIRMATION_VALUE⟩ = .ok tx →
            (anchorRootHash setHint s).2 = .ok tx)
        ∧ (∀ e,
            setHint ⟨s.opts.ns, s.opts.list, rh, CONFIRMATION_VALUE⟩
              = .error e →
            (anchorRootHash setHint s).2
              = .error (.controller ("Failed to anchor root hash: " ++ e)))) := by
  constructor
  · intro hfalsy
    have herr : getRootHash s = .error (.controller noRootHashMsg) := by
      match hrh : s.rootHash with
      | none => simp [getRootHash, hrh]
      | some v =>
        simp [strFalsy, hrh] at hfalsy
        simp [getRootHash, hrh, hfalsy]
    simp [anchorRootHash, herr]
  · intro rh hroot
    refine ⟨?_, ?_, ?_⟩
    · cases hsh : setHint ⟨s.opts.ns, s.opts.list, rh, CONFIRMATION_VALUE⟩ <;>
        simp [anchorRootHash, hroot, hsh]
    · intro tx hsh
      simp [anchorRootHash, hroot, hsh]
    · intro e hsh
      simp [anchorRootHash, hroot, hsh]

/-- Witness for C7: at a state with root hash `"0xroot"`, the no-root branch
is vacuous; a succeeding `setHint` records exactly the one sentinel write and
returns the transaction, and a failing one wraps the cause. -/
theorem anchorRootHash_single_write_witness :
    (anchorRootHash (fun _ => Except.ok "0xtxhash")
        (⟨copts0, (none : Option Unit), some "0xroot"⟩ : ControllerState Unit)).1
      = [⟨"0xns", "0xlist", "0xroot", CONFIRMATION_VALUE⟩]
    ∧ (anchorRootHash (fun _ => Except.ok "0xtxhash")
        (⟨copts0, (none : Option Unit), some "0xroot"⟩ : ControllerState Unit)).2
      = .ok "0xtxhash"
    ∧ (anchorRootHash (fun _ => Except.error "Transaction failed")
        (⟨copts0, (none : Option Unit), some "0xroot"⟩ : ControllerState Unit)).2
      = .error (.controller "Failed to anchor root hash: Transaction failed") := by
  have hok := (anchorRootHash_single_write (fun _ => Except.ok "0xtxhash")
    (⟨copts0, (none : Option Unit), some "0xroot"⟩ : ControllerState Unit)).2
    "0xroot" rfl
  have herr := (anchorRootHash_single_write
    (fun _ => Except.error "Transaction failed")
    (⟨copts0, (none : Option Unit), some "0xroot"⟩ : ControllerState Unit)).2
    "0xroot" rfl
  exact ⟨hok.1, hok.2.1 "0xtxhash" rfl, herr.2.2 "Transaction failed" rfl⟩

/-- C8: for an instance constructed with only `{ rootHash }` (non-empty), no
tree is built, so `getMerkleProof` and `getAllMerkleProofs` fail with the
"no merkle tree available" errors, while `anchorRootHash` and `verifyProof`
remain available; `verifyProof` against a root hash the registry has no
events for returns `{verified:false, reason:"root_hash_not_found"}` rather
than raising. -/
theorem rootHashOnly_mode {Tree : Type} (lib : MerkleLib Tree)
    (copts : ContractOptions) (rh : String) (hne : rh ≠ "")
    (setHint : SetHintCall → Except String String)
    (queryFilter : String → String → Option String → List EventLog)
    (getBlockTimestamp : Int → Option Int)
    (merkleVerify : String → List String → Val → List String → Bool)
    (leaf : Val) (proof : List String) (c : Int) (m : Option Int)
    (enc : List String) :
    mkTimestampController lib copts (some (.rootHashOpt rh))
        = .ok ⟨copts, none, some rh⟩
    ∧ getMerkleProof lib (⟨copts, none, some rh⟩ : ControllerState Tree) leaf
        = .error (.controller "No merkle tree available to generate proof")
    ∧ getAllMerkleProofs lib (⟨copts, none, some rh⟩ : ControllerState Tree)
        = .error (.controller "No merkle tree available to generate proofs")
    ∧ getRootHash (⟨copts, none, some rh⟩ : ControllerState Tree) = .ok rh
    ∧ (∀ tx, setHint ⟨copts.ns, copts.list, rh, CONFIRMATION_VALUE⟩ = .ok tx →
        anchorRootHash setHint (⟨copts, none, some rh⟩ : ControllerState Tree)
          = ([⟨copts.ns, copts.list, rh, CONFIRMATION_VALUE⟩], .ok tx))
    ∧ (queryFilter copts.ns copts.list (some rh) = [] →
        verifyProof queryFilter getBlockTimestamp merkleVerify
          (⟨copts, none, some rh⟩ : ControllerState Tree) leaf proof c m enc
          = .ok ⟨false, some ROOT_HASH_NOT_FOUND⟩) := by
  have hroot : getRootHash (⟨copts, none, some rh⟩ : ControllerState Tree)
      = .ok rh := by
    simp [getRootHash, hne]
  refine ⟨rfl, rfl, rfl, hroot, ?_, ?_⟩
  · intro tx hsh
    simp [anchorRootHash, hroot, hsh]
  · intro hq
    simp [verifyProof, hroot, getHintValueChangedEvents, hq]

/-- Witness for C8 at root hash `"0x12"` with an empty registry. -/
theorem rootHashOnly_mode_witness :
    mkTimestampController listLib copts0 (some (.rootHashOpt "0x12"))
        = .ok ⟨copts0, none, some "0x12"⟩
    ∧ getMerkleProof listLib
        (⟨copts0, none, some "0x12"⟩ : ControllerState (List Val))
        (Val.str "x")
        = .error (.controller "No merkle tree available to generate proof")
    ∧ verifyProof (fun _ _ _ => []) (fun _ => none) (fun _ _ _ _ => true)
        (⟨copts0, none, some "0x12"⟩ : ControllerState (List Val))
        (Val.str "x") [] 0 none ["string"]
        = .ok ⟨false, some ROOT_HASH_NOT_FOUND⟩ := by
  have h := rootHashOnly_mode listLib copts0 "0x12" (by decide)
    (fun _ => Except.ok "0xtx") (fun _ _ _ => []) (fun _ => none)
    (fun _ _ _ _ => true) (Val.str "x") [] 0 none ["string"]
  exact ⟨h.1, h.2.1, h.2.2.2.2.2 rfl⟩

/-- C9 (frame): the constructor establishes the invariant "whenever a Merkle
tree is present, the stored root hash is that tree's root"; none of the five
public operations modifies the `merkleTree` or `rootHash` fields (each
returns the state unchanged), so `getRootHash` yields the same value before
and after any of them and the invariant is preserved by every operation. -/
theorem publicOps_frame {Tree : Type} (lib : MerkleLib Tree)
    (setHint : SetHintCall → Except String String)
    (queryFilter : String → String → Option String → List EventLog)
    (getBlockTimestamp : Int → Option Int)
    (merkleVerify : String → List String → Val → List String → Bool)
    (leaf : Val) (proof : List String) (c : Int) (m : Option Int)
    (enc : List String) (copts : ContractOptions)
    (topts : Option TreeOrRootOptions) (s s0 : ControllerState Tree)
    (hmk : mkTimestampController lib copts topts = .ok s0) :
    rootInvariant lib s0
    ∧ (getRootHashS s).2 = s
    ∧ (anchorRootHashS setHint s).2 = s
    ∧ (getMerkleProofS lib s leaf).2 = s
    ∧ (getAllMerkleProofsS lib s).2 = s
    ∧ (verifyProofS queryFilter getBlockTimestamp merkleVerify s leaf proof c
        m enc).2 = s
    ∧ (getRootHashS ((anchorRootHashS setHint s).2)).1 = (getRootHashS s).1
    ∧ (rootInvariant lib s → rootInvariant lib
        ((verifyProofS queryFilter getBlockTimestamp merkleVerify s leaf proof
          c m enc).2)) := by
  refine ⟨?_, rfl, rfl, rfl, rfl, rfl, rfl, fun h => h⟩
  cases topts with
  | none =>
    simp [mkTimestampController, initializeTreeOrRoot] at hmk
    intro t ht
    rw [← hmk] at ht
    simp at ht
  | some tro =>
    cases tro with
    | rootHashOpt v =>
      simp [mkTimestampController, initializeTreeOrRoot] at hmk
      intro t ht
      rw [← hmk] at ht
      simp at ht
    | treeOpts o =>
      cases hof : lib.of o.leaves o.encoding with
      | error e =>
        simp [mkTimestampController, initializeTreeOrRoot, createMerkleTree,
          hof] at hmk
      | ok tr =>
        simp [mkTimestampController, initializeTreeOrRoot, createMerkleTree,
          hof] at hmk
        intro t ht
        rw [← hmk] at ht ⊢
        simp at ht
        simp [← ht]

/-- Witness for C9 at a concretely constructed instance. -/
theorem publicOps_frame_witness :
    rootInvariant listLib
      (⟨copts0, some [Val.str "d"], some "0xroot"⟩ : ControllerState (List Val))
    ∧ (anchorRootHashS (fun _ => Except.ok "0xtx")
        (⟨copts0, some data11, some "0xroot"⟩ : ControllerState (List Val))).2
      = ⟨copts0, some data11, some "0xroot"⟩
    ∧ (getRootHashS ((anchorRootHashS (fun _ => Except.ok "0xtx")
        (⟨copts0, some data11, some "0xroot"⟩
          : ControllerState (List Val))).2)).1
      = (getRootHashS (⟨copts0, some data11, some "0xroot"⟩
          : ControllerState (List Val))).1 := by
  have h := publicOps_frame listLib (fun _ => Except.ok "0xtx")
    (fun _ _ _ => []) (fun _ => none) (fun _ _ _ _ => true)
    (Val.str "x") [] 0 none ["string"] copts0
    (some (.treeOpts ⟨[Val.str "d"], ["string"]⟩))
    (⟨copts0, some data11, some "0xroot"⟩ : ControllerState (List Val))
    (⟨copts0, some [Val.str "d"], some "0xroot"⟩ : ControllerState (List Val))
    rfl
  exact ⟨h.1, h.2.2.1, h.2.2.2.2.2.2.1⟩

end Timestamp
